import Mathlib

/-!
Verification development for the WatchGraph compliance-monitoring service
(`src/app.py`, `src/models.py`, `src/s3_service.py`, `src/database.py`).

The Python endpoints are shallowly embedded as pure Lean functions over an
explicit database state.  SQLAlchemy sessions (created per request by
`database.get_db`, `autocommit=False`) discard uncommitted mutations when the
session closes, so an endpoint that raises before `db.commit()` leaves the
durable state unchanged; such endpoints are embedded as functions returning
`Except`, where an `.error` result carries no new state.  Endpoints with more
than one `db.commit()` (`create_ai_system`) are embedded with their commit
points explicit, so that a failure between commits is representable.
External collaborators (S3, the clock, uuid generation) are passed in as
explicit parameters: the blob store is a list of written keys, `utcnow`
becomes `now`/`now_ts` parameters, and uuid defaults become id parameters.
-/

namespace WatchGraph

/-- Embedding of `models.RiskCategory` (EU AI Act risk categories). -/
inductive RiskCategory where
  | unacceptable
  | high
  | limited
  | minimal
deriving DecidableEq, Repr

/-- Embedding of `models.ComplianceStatus`. -/
inductive ComplianceStatus where
  | not_started
  | in_progress
  | completed
  | non_compliant
deriving DecidableEq, Repr

/-- Embedding of `models.EvidenceStatus`. -/
inductive EvidenceStatus where
  | current
  | expiring_soon
  | expired
  | archived
deriving DecidableEq, Repr

/-- A calendar date, the embedding of Python's `datetime.date`. -/
structure Date where
  year : Nat
  month : Nat
  day : Nat
deriving DecidableEq, Repr

/-- Embedding of `models.AISystem` row (timestamps omitted: no claim depends on them). -/
structure AISystem where
  id : String
  name : String
  description : Option String
  risk_category : RiskCategory
  organization : Option String
  department : Option String
  owner_email : Option String
deriving DecidableEq, Repr

/-- Embedding of `models.ComplianceRequirement` row; `applies_to` is the decoded JSON list. -/
structure ComplianceRequirement where
  id : String
  article : String
  title : String
  description : String
  applies_to : List RiskCategory
deriving DecidableEq, Repr

/-- Embedding of `models.RequirementMapping` row (timestamps omitted). -/
structure RequirementMapping where
  id : String
  ai_system_id : String
  requirement_id : String
  status : ComplianceStatus
  notes : Option String
  updated_by : Option String
deriving DecidableEq, Repr

/-- Embedding of `models.Evidence` row.  `created_at` is kept (the evidence listings order
by it); `deleted_at = none` means the row is live. -/
structure Evidence where
  id : String
  ai_system_id : String
  requirement_mapping_id : Option String
  file_name : String
  file_type : String
  file_size : Nat
  s3_key : String
  description : Option String
  status : EvidenceStatus
  expiration_date : Option Date
  uploaded_by : Option String
  deleted_at : Option Nat
  created_at : Nat
deriving DecidableEq, Repr

/-- The relational store shared by all endpoints. -/
structure DB where
  systems : List AISystem
  requirements : List ComplianceRequirement
  mappings : List RequirementMapping
  evidence : List Evidence
deriving DecidableEq, Repr

/-- An HTTP error: status code and detail, the embedding of
`fastapi.HTTPException(status_code, detail)`. -/
abbrev HError := Nat × String

/-! ## `s3_service.py` -/

/-- Embedding of `s3_service.ALLOWED_FILE_TYPES`. -/
def ALLOWED_FILE_TYPES : List String := ["pdf", "png", "jpg", "jpeg", "xlsx", "docx", "csv"]

/-- Embedding of `s3_service.MAX_FILE_SIZE` (25 MiB). -/
def MAX_FILE_SIZE : Nat := 25 * 1024 * 1024

/-- Python's truthiness fallback `organization or "default"` from
`s3_service.generate_s3_key`: `None` and the empty string both fall back. -/
def orgOrDefault : Option String → String
  | none => "default"
  | some s => if s = "" then "default" else s

/-- Python's `str.replace(old, new)` specialized to a one-character search
string: replace every occurrence of the character `c` by `r`. -/
def replaceChar (c r : Char) (s : String) : String :=
  ⟨s.data.map (fun x => if x = c then r else x)⟩

/-- The sanitization step of `generate_s3_key`:
`filename.replace("/", "_").replace("\\", "_")`. -/
def sanitizeFilename (filename : String) : String :=
  replaceChar '\\' '_' (replaceChar '/' '_' filename)

/-- Embedding of `s3_service.generate_s3_key`.  `now_ts` stands for
`datetime.utcnow().strftime("%Y%m%d%H%M%S")`: the second-precision UTC
timestamp, equal for two calls within the same second. -/
def generate_s3_key (organization : Option String) (system_id : String)
    (requirement_mapping_id : String) (filename : String) (now_ts : String) : String :=
  let safe_filename := sanitizeFilename filename
  let org := orgOrDefault organization
  org ++ "/" ++ system_id ++ "/" ++ requirement_mapping_id ++ "/" ++ now_ts ++ "_" ++ safe_filename

/-! ## Dates (`datetime.strptime(s, "%Y-%m-%d")`) -/

/-- Split a character list at every occurrence of the separator `c`
(Python's `str.split` with a one-character separator). -/
def splitOnChar (c : Char) : List Char → List (List Char)
  | [] => [[]]
  | x :: xs =>
    if x = c then [] :: splitOnChar c xs
    else
      match splitOnChar c xs with
      | [] => [[x]]
      | g :: gs => (x :: g) :: gs

/-- The numeric value of a list of decimal digits (the integer conversion
`strptime` applies to a matched digit group). -/
def digitsToNat (l : List Char) : Nat :=
  l.foldl (fun n c => n * 10 + (c.toNat - 48)) 0

/-- Gregorian leap-year rule, as implemented by `datetime.date`. -/
def isLeapYear (y : Nat) : Bool :=
  (y % 4 == 0 && y % 100 != 0) || y % 400 == 0

/-- Number of days in month `m` of year `y`. -/
def daysInMonth (y m : Nat) : Nat :=
  if m = 2 then (if isLeapYear y then 29 else 28)
  else if m = 4 || m = 6 || m = 9 || m = 11 then 30
  else 31

/-- Every character of the string is ASCII.  CPython's `strptime` regexes use
`\d`, which also matches non-ASCII Unicode decimal digits; the embedding below
is faithful on ASCII strings, and the theorems whose hypotheses assert a
failing parse restrict the date string accordingly. -/
def allAscii (s : String) : Bool :=
  s.data.all (fun c => c.toNat < 128)

/-- The day group of CPython's `strptime`, whose `%d` pattern is
`3[01]|[12]\d|0[1-9]|[1-9]| [1-9]`: one or two digits, or a space followed by
a single digit.  (The space form with digit `0` is admitted here and rejected
by the `1 ≤ day` range check instead — same verdict as CPython, which fails
it at the regex.) -/
def dayGroup (l : List Char) : Option Nat :=
  if (l.length = 1 ∨ l.length = 2) ∧ l.all Char.isDigit then
    some (digitsToNat l)
  else
    match l with
    | [' ', c] => if c.isDigit then some (c.toNat - 48) else none
    | _ => none

/-- Embedding of `datetime.strptime(s, "%Y-%m-%d").date()` as CPython's
`_strptime` implements it on ASCII strings: the string must consist of three
dash-separated groups (no group can contain a dash and the whole string must
be consumed, so any other dash count fails); `%Y` matches exactly four
digits, `%m` one or two digits, `%d` one or two digits or a space followed by
a single digit; the groups are converted by `int()` and validated by the
`datetime.date` constructor (year at least 1, month 1–12, day within the
Gregorian month).  Any failure raises `ValueError`, embedded as `none`. -/
def parseDate (s : String) : Option Date :=
  match splitOnChar '-' s.data with
  | [ys, ms, ds] =>
    if ys.length = 4 ∧ ys.all Char.isDigit then
      if (ms.length = 1 ∨ ms.length = 2) ∧ ms.all Char.isDigit then
        match dayGroup ds with
        | some d =>
          let y := digitsToNat ys
          let m := digitsToNat ms
          if 1 ≤ y ∧ 1 ≤ m ∧ m ≤ 12 ∧ 1 ≤ d ∧ d ≤ daysInMonth y m then
            some { year := y, month := m, day := d }
          else none
        | none => none
      else none
    else none
  | _ => none

/-! ## `POST /api/systems` (`create_ai_system`, src/app.py lines 138–193) -/

/-- Request body schema `AISystemCreate`. -/
structure AISystemCreate where
  name : String
  description : Option String
  risk_category : RiskCategory
  organization : Option String
  department : Option String
  owner_email : Option String
deriving DecidableEq, Repr

/-- The `AISystem(...)` row built at src/app.py lines 151–158; `newId` stands
for the uuid primary-key default. -/
def mkAISystem (req : AISystemCreate) (newId : String) : AISystem :=
  { id := newId, name := req.name, description := req.description,
    risk_category := req.risk_category, organization := req.organization,
    department := req.department, owner_email := req.owner_email }

/-- The assignment loop of `create_ai_system` (src/app.py lines 164–177):
walk the whole requirement catalog, and for each requirement whose decoded
`applies_to` list contains the system's risk category, create one
`RequirementMapping` with status `not_started` and bump the
`requirements_assigned` counter `n`.  `fresh k` stands for the uuid default
of the mapping created when the counter reads `k`.  Returns the created
mappings and the final counter. -/
def assignRequirements (sysId : String) (risk : RiskCategory) (fresh : Nat → String) :
    List ComplianceRequirement → Nat → List RequirementMapping × Nat
  | [], n => ([], n)
  | q :: qs, n =>
    if risk ∈ q.applies_to then
      let m : RequirementMapping :=
        { id := fresh n, ai_system_id := sysId, requirement_id := q.id,
          status := .not_started, notes := none, updated_by := none }
      let rest := assignRequirements sysId risk fresh qs (n + 1)
      (m :: rest.1, rest.2)
    else
      assignRequirements sysId risk fresh qs n

/-- First half of `create_ai_system`, up to and including the first
`db.commit()` (src/app.py line 161): the system row alone is made durable. -/
def create_ai_system_phase1 (db : DB) (req : AISystemCreate) (newId : String) : DB :=
  { db with systems := db.systems ++ [mkAISystem req newId] }

/-- Second half of `create_ai_system`: the assignment loop followed by the
second `db.commit()` (src/app.py line 179). -/
def create_ai_system_phase2 (db : DB) (risk : RiskCategory) (newId : String)
    (fresh : Nat → String) : DB × Nat :=
  let r := assignRequirements newId risk fresh db.requirements 0
  ({ db with mappings := db.mappings ++ r.1 }, r.2)

/-- Embedding of `create_ai_system` with its two commit points explicit.  `commit2_ok`
models whether the mapping-creation half reaches its commit: when it fails
(a storage write failure between the two commits), the durable state is the
one left by the first commit — the system row without any mappings.  The
returned count is the endpoint's `requirements_assigned`, `none` on abort. -/
def create_ai_system_run (db : DB) (req : AISystemCreate) (newId : String)
    (fresh : Nat → String) (commit2_ok : Bool) : DB × Option Nat :=
  let db1 := create_ai_system_phase1 db req newId
  if commit2_ok then
    let r := create_ai_system_phase2 db1 req.risk_category newId fresh
    (r.1, some r.2)
  else
    (db1, none)

/-! ## `GET /api/systems/{id}` (`get_ai_system`, src/app.py lines 215–233) -/

/-- Embedding of `get_ai_system`: first system row with the given id, else 404. -/
def get_ai_system (db : DB) (system_id : String) : Except HError AISystem :=
  match db.systems.find? (fun s => s.id == system_id) with
  | none => .error (404, "AI system not found")
  | some s => .ok s

/-! ## `GET /api/systems/{id}/compliance` (src/app.py lines 288–333) -/

/-- The `status_counts` dictionary of `get_system_compliance`, with its four
fixed keys as fields. -/
structure StatusCounts where
  not_started : Nat
  in_progress : Nat
  completed : Nat
  non_compliant : Nat
deriving DecidableEq, Repr

/-- One iteration of the counting loop:
`status_counts[mapping.status.value] += 1`. -/
def bumpCount (c : StatusCounts) : ComplianceStatus → StatusCounts
  | .not_started => { c with not_started := c.not_started + 1 }
  | .in_progress => { c with in_progress := c.in_progress + 1 }
  | .completed => { c with completed := c.completed + 1 }
  | .non_compliant => { c with non_compliant := c.non_compliant + 1 }

/-- Round-half-to-even to an integer, the rounding used by Python's builtin
`round`. -/
def roundHalfEven (q : ℚ) : ℤ :=
  if q - ⌊q⌋ < 1/2 then ⌊q⌋
  else if (1 : ℚ)/2 < q - ⌊q⌋ then ⌊q⌋ + 1
  else if ⌊q⌋ % 2 = 0 then ⌊q⌋ else ⌊q⌋ + 1

/-- Embedding of `round(x, 2)`: round-half-to-even at two decimal places. -/
def round2 (q : ℚ) : ℚ := (roundHalfEven (q * 100) : ℚ) / 100

/-- The part of the `get_system_compliance` response the claims are about.
`status_breakdown = none` embeds the empty dictionary `{}` of the
zero-mapping branch; `some c` embeds the four-key `status_counts`
dictionary (the `requirements_*` response fields duplicate those keys). -/
structure ComplianceOut where
  total_requirements : Nat
  compliance_percentage : ℚ
  status_breakdown : Option StatusCounts
deriving DecidableEq, Repr

/-- Embedding of `get_system_compliance` (src/app.py lines 288–333). -/
def get_system_compliance (db : DB) (system_id : String) : Except HError ComplianceOut :=
  match db.systems.find? (fun s => s.id == system_id) with
  | none => .error (404, "AI system not found")
  | some _ =>
    let mappings := db.mappings.filter (fun m => m.ai_system_id == system_id)
    let total_requirements := mappings.length
    if total_requirements = 0 then
      .ok { total_requirements := 0, compliance_percentage := 0, status_breakdown := none }
    else
      let status_counts := mappings.foldl (fun c m => bumpCount c m.status) ⟨0, 0, 0, 0⟩
      let compliance_percentage : ℚ :=
        ((status_counts.completed : ℚ) / (total_requirements : ℚ)) * 100
      .ok { total_requirements := total_requirements,
            compliance_percentage := round2 compliance_percentage,
            status_breakdown := some status_counts }

/-! ## `PUT /api/requirements/{mapping_id}` (src/app.py lines 335–377) -/

/-- Request body schema `RequirementStatusUpdate`. -/
structure RequirementStatusUpdate where
  status : ComplianceStatus
  notes : Option String
  updated_by : Option String
deriving DecidableEq, Repr

/-- Mutate the first list element satisfying `p` (SQLAlchemy's
`.filter(...).first()` followed by in-place mutation and commit). -/
def updateFirst (p : α → Bool) (f : α → α) : List α → List α
  | [] => []
  | x :: xs => if p x then f x :: xs else x :: updateFirst p f xs

/-- The field mutations of `update_requirement_status` (src/app.py lines
349–355): status overwritten unconditionally; notes and updated_by only when
the request supplied them. -/
def applyStatusUpdate (u : RequirementStatusUpdate) (m : RequirementMapping) :
    RequirementMapping :=
  { m with
    status := u.status,
    notes := match u.notes with | some n => some n | none => m.notes,
    updated_by := match u.updated_by with | some e => some e | none => m.updated_by }

/-- Embedding of `update_requirement_status` (src/app.py lines 335–358): 404 when no
mapping has the id, else mutate the found row and commit. -/
def update_requirement_status (db : DB) (mapping_id : String)
    (u : RequirementStatusUpdate) : Except HError DB :=
  match db.mappings.find? (fun m => m.id == mapping_id) with
  | none => .error (404, "Requirement mapping not found")
  | some _ =>
    .ok { db with
          mappings := updateFirst (fun m => m.id == mapping_id)
            (applyStatusUpdate u) db.mappings }

/-- A sequence of `update_requirement_status` calls on one mapping id. -/
def runStatusUpdates (db : DB) (mapping_id : String) :
    List RequirementStatusUpdate → Except HError DB
  | [] => .ok db
  | u :: us =>
    match update_requirement_status db mapping_id u with
    | .error e => .error e
    | .ok db' => runStatusUpdates db' mapping_id us

/-! ## Evidence endpoints (src/app.py lines 383–731) -/

/-- The uploaded file as the endpoint observes it: its filename and the byte
length of `await file.read()`. -/
structure UploadFile where
  filename : String
  size : Nat
deriving DecidableEq, Repr

/-- The world an evidence upload touches: the relational store plus the blob
store, the latter as the list of keys written to S3. -/
structure World where
  db : DB
  s3 : List String
deriving DecidableEq, Repr

/-- Character-wise lower-casing (Python's `str.lower` on ASCII extensions). -/
def toLowerStr (s : String) : String :=
  ⟨s.data.map Char.toLower⟩

/-- Python's `'.' in filename` membership test for a single character. -/
def containsChar (c : Char) (s : String) : Bool :=
  s.data.contains c

/-- Embedding of `file.filename.rsplit('.', 1)[1].lower()`: the lower-cased part after the
last dot (only evaluated under the guard that the filename contains a dot). -/
def extOf (filename : String) : String :=
  toLowerStr ⟨(splitOnChar '.' filename.data).getLastD []⟩

/-- The `EvidenceStatus(status)` enum constructor by value: `ValueError`
(embedded as `none`) on a string that is not one of the four values. -/
def parseEvidenceStatus (s : String) : Option EvidenceStatus :=
  if s = "current" then some .current
  else if s = "expiring_soon" then some .expiring_soon
  else if s = "expired" then some .expired
  else if s = "archived" then some .archived
  else none

/-- Embedding of `upload_evidence` (src/app.py lines 383–484), in source order: mapping
lookup, system lookup, extension presence, extension allow-list, size > max,
size = 0, S3 key derivation, S3 write (`s3_ok` models whether
`upload_file_to_s3` succeeds; a failed put writes nothing), expiration-date
parse, and finally the database insert plus commit.  `now_ts` is the
timestamp used in the key, `now` the insert's `created_at`, `newId` the row's
uuid default.  The returned world carries every durable mutation the call
made, whether or not it succeeded. -/
def upload_evidence (w : World) (mapping_id : String) (file : UploadFile)
    (description expiration_date uploaded_by : Option String)
    (now_ts : String) (now : Nat) (newId : String) (s3_ok : Bool) :
    Except HError Evidence × World :=
  match w.db.mappings.find? (fun m => m.id == mapping_id) with
  | none => (.error (404, "Requirement mapping not found"), w)
  | some mapping =>
    match w.db.systems.find? (fun s => s.id == mapping.ai_system_id) with
    | none => (.error (404, "AI system not found"), w)
    | some system =>
      if file.filename = "" ∨ ¬ containsChar '.' file.filename then
        (.error (400, "File must have an extension"), w)
      else
        let file_ext := extOf file.filename
        if file_ext ∉ ALLOWED_FILE_TYPES then
          (.error (400, "File type not allowed"), w)
        else
          let file_size := file.size
          if file_size > MAX_FILE_SIZE then
            (.error (400, "File too large"), w)
          else if file_size = 0 then
            (.error (400, "File is empty"), w)
          else
            let s3_key :=
              generate_s3_key system.organization system.id mapping_id file.filename now_ts
            if s3_ok = false then
              (.error (500, "Failed to upload file"), w)
            else
              let w1 : World := { w with s3 := w.s3 ++ [s3_key] }
              let exp : Except HError (Option Date) :=
                match expiration_date with
                | none => .ok none
                | some ds =>
                  match parseDate ds with
                  | none => .error (400, "Invalid date format. Use YYYY-MM-DD")
                  | some d => .ok (some d)
              match exp with
              | .error e => (.error e, w1)
              | .ok exp_date =>
                let evidence : Evidence :=
                  { id := newId, ai_system_id := system.id,
                    requirement_mapping_id := some mapping_id,
                    file_name := file.filename, file_type := file_ext,
                    file_size := file_size, s3_key := s3_key,
                    description := description, status := .current,
                    expiration_date := exp_date, uploaded_by := uploaded_by,
                    deleted_at := none, created_at := now }
                (.ok evidence,
                 { w1 with db := { w1.db with evidence := w1.db.evidence ++ [evidence] } })

/-- The live-evidence query shared by the per-mapping listing and the stats
endpoint: rows for the mapping whose `deleted_at` is null. -/
def liveEvidenceForMapping (evs : List Evidence) (mapping_id : String) : List Evidence :=
  evs.filter (fun e => e.requirement_mapping_id == some mapping_id && e.deleted_at == none)

/-- The live-evidence query of the per-system listing. -/
def liveEvidenceForSystem (evs : List Evidence) (system_id : String) : List Evidence :=
  evs.filter (fun e => e.ai_system_id == system_id && e.deleted_at == none)

/-- Insertion step of `order_by(Evidence.created_at.desc())`. -/
def insertByCreatedDesc (e : Evidence) : List Evidence → List Evidence
  | [] => [e]
  | x :: xs =>
    if e.created_at ≤ x.created_at then x :: insertByCreatedDesc e xs
    else e :: x :: xs

/-- Embedding of `order_by(Evidence.created_at.desc())`: sort newest-first. -/
def sortByCreatedDesc : List Evidence → List Evidence
  | [] => []
  | e :: es => insertByCreatedDesc e (sortByCreatedDesc es)

/-- A paginated evidence listing response. -/
structure EvidencePage where
  items : List Evidence
  total : Nat
  page : Nat
  page_size : Nat
deriving DecidableEq, Repr

/-- Embedding of `list_requirement_evidence` (src/app.py lines 487–531): page size clamped
to 100, live rows only, total counted before pagination, newest first,
offset `(page - 1) * page_size`, limit `page_size`. -/
def list_requirement_evidence (db : DB) (mapping_id : String)
    (page page_size : Nat) : Except HError EvidencePage :=
  match db.mappings.find? (fun m => m.id == mapping_id) with
  | none => .error (404, "Requirement mapping not found")
  | some _ =>
    let ps := min page_size 100
    let query := liveEvidenceForMapping db.evidence mapping_id
    let total := query.length
    let items := ((sortByCreatedDesc query).drop ((page - 1) * ps)).take ps
    .ok { items := items, total := total, page := page, page_size := ps }

/-- Embedding of `list_system_evidence` (src/app.py lines 534–579), same shape keyed by
the owning system. -/
def list_system_evidence (db : DB) (system_id : String)
    (page page_size : Nat) : Except HError EvidencePage :=
  match db.systems.find? (fun s => s.id == system_id) with
  | none => .error (404, "AI system not found")
  | some _ =>
    let ps := min page_size 100
    let query := liveEvidenceForSystem db.evidence system_id
    let total := query.length
    let items := ((sortByCreatedDesc query).drop ((page - 1) * ps)).take ps
    .ok { items := items, total := total, page := page, page_size := ps }

/-- Embedding of `get_evidence` (src/app.py lines 582–606): single live record or 404. -/
def get_evidence (db : DB) (evidence_id : String) : Except HError Evidence :=
  match db.evidence.find? (fun e => e.id == evidence_id && e.deleted_at == none) with
  | none => .error (404, "Evidence not found")
  | some e => .ok e

/-- Embedding of `update_evidence` (src/app.py lines 637–682).  The handler mutates the
session-held row field by field and only then commits; a validation failure
raises before the commit, and `database.get_db` closes the session without
committing, discarding every pending field change — hence an `.error` result
carries no new state even when an earlier field (the description) had been
assigned in the session. -/
def update_evidence (db : DB) (evidence_id : String)
    (description expiration_date status : Option String) : Except HError DB :=
  match db.evidence.find? (fun e => e.id == evidence_id && e.deleted_at == none) with
  | none => .error (404, "Evidence not found")
  | some e =>
    let e1 := match description with
      | some d => { e with description := some d }
      | none => e
    let expRes : Except HError (Option Date) :=
      match expiration_date with
      | none => .ok e1.expiration_date
      | some ds =>
        match parseDate ds with
        | none => .error (400, "Invalid date format. Use YYYY-MM-DD")
        | some d => .ok (some d)
    match expRes with
    | .error err => .error err
    | .ok expVal =>
      let e2 := { e1 with expiration_date := expVal }
      let stRes : Except HError EvidenceStatus :=
        match status with
        | none => .ok e2.status
        | some s =>
          match parseEvidenceStatus s with
          | none => .error (400, "Invalid status")
          | some v => .ok v
      match stRes with
      | .error err => .error err
      | .ok stVal =>
        let e3 := { e2 with status := stVal }
        .ok { db with
              evidence := updateFirst
                (fun x => x.id == evidence_id && x.deleted_at == none)
                (fun _ => e3) db.evidence }

/-- Embedding of `delete_evidence` (src/app.py lines 685–701): soft delete.  The lookup
itself excludes already-deleted rows, so only a live row can be marked. -/
def delete_evidence (db : DB) (evidence_id : String) (now : Nat) : Except HError DB :=
  match db.evidence.find? (fun e => e.id == evidence_id && e.deleted_at == none) with
  | none => .error (404, "Evidence not found")
  | some _ =>
    .ok { db with
          evidence := updateFirst
            (fun e => e.id == evidence_id && e.deleted_at == none)
            (fun e => { e with deleted_at := some now }) db.evidence }

/-- The `stats` result dictionary with its five fixed keys. -/
structure EvidenceStats where
  current : Nat
  expiring_soon : Nat
  expired : Nat
  archived : Nat
  total : Nat
deriving DecidableEq, Repr

/-- One row of the grouped query folded into the result dictionary:
`result[status.value] = count; result["total"] += count`, here applied one
live row at a time (the GROUP BY with counts is the same total fold). -/
def bumpStat (r : EvidenceStats) (s : EvidenceStatus) : EvidenceStats :=
  match s with
  | .current => { r with current := r.current + 1, total := r.total + 1 }
  | .expiring_soon => { r with expiring_soon := r.expiring_soon + 1, total := r.total + 1 }
  | .expired => { r with expired := r.expired + 1, total := r.total + 1 }
  | .archived => { r with archived := r.archived + 1, total := r.total + 1 }

/-- Embedding of `get_evidence_stats` (src/app.py lines 704–731): live rows of the mapping
counted per freshness status, all four statuses zero-filled, plus a total. -/
def get_evidence_stats (db : DB) (mapping_id : String) : Except HError EvidenceStats :=
  match db.mappings.find? (fun m => m.id == mapping_id) with
  | none => .error (404, "Requirement mapping not found")
  | some _ =>
    .ok ((liveEvidenceForMapping db.evidence mapping_id).foldl
      (fun r e => bumpStat r e.status)
      { current := 0, expiring_soon := 0, expired := 0, archived := 0, total := 0 })

/-! ## `DELETE /api/systems/{id}` (`delete_ai_system`, src/app.py lines 745–765) -/

/-- Embedding of `delete_ai_system`: 404 when no system has the id; otherwise bulk-delete
every evidence row of the system (the filter is on `ai_system_id` alone, so
soft-deleted rows go too), every requirement mapping of the system, then the
system row, under one `db.commit()` — a single transaction, so the embedded
step is all-or-nothing. -/
def delete_ai_system (db : DB) (system_id : String) : Except HError DB :=
  match db.systems.find? (fun s => s.id == system_id) with
  | none => .error (404, "AI system not found")
  | some _ =>
    .ok { db with
          evidence := db.evidence.filter (fun e => !(e.ai_system_id == system_id)),
          mappings := db.mappings.filter (fun m => !(m.ai_system_id == system_id)),
          systems := db.systems.eraseP (fun s => s.id == system_id) }

/-! ## Helper lemmas -/

theorem foldl_bumpCount (ms : List RequirementMapping) (c : StatusCounts) :
    ms.foldl (fun c m => bumpCount c m.status) c =
      { not_started := c.not_started + ms.countP (fun m => m.status == ComplianceStatus.not_started),
        in_progress := c.in_progress + ms.countP (fun m => m.status == ComplianceStatus.in_progress),
        completed := c.completed + ms.countP (fun m => m.status == ComplianceStatus.completed),
        non_compliant := c.non_compliant + ms.countP (fun m => m.status == ComplianceStatus.non_compliant) } := by
  induction ms generalizing c with
  | nil => simp
  | cons m ms ih =>
    rw [List.foldl_cons, ih]
    cases h : m.status <;>
      simp [bumpCount, h, List.countP_cons, StatusCounts.mk.injEq] <;> omega

theorem assignRequirements_snd (sysId : String) (risk : RiskCategory)
    (fresh : Nat → String) (qs : List ComplianceRequirement) :
    ∀ n : Nat, (assignRequirements sysId risk fresh qs n).2 =
      n + qs.countP (fun q => decide (risk ∈ q.applies_to)) := by
  induction qs with
  | nil => intro n; simp [assignRequirements]
  | cons q qs ih =>
    intro n
    by_cases h : risk ∈ q.applies_to
    · simp [assignRequirements, h, ih, List.countP_cons]
      omega
    · simp [assignRequirements, h, ih, List.countP_cons]

theorem assignRequirements_mem (sysId : String) (risk : RiskCategory)
    (fresh : Nat → String) (qs : List ComplianceRequirement) :
    ∀ (n : Nat) (m : RequirementMapping), m ∈ (assignRequirements sysId risk fresh qs n).1 →
      m.status = ComplianceStatus.not_started ∧ m.ai_system_id = sysId ∧
        m.requirement_id ∈ qs.map (fun q => q.id) := by
  induction qs with
  | nil => intro n m hm; simp [assignRequirements] at hm
  | cons q qs ih =>
    intro n m hm
    by_cases h : risk ∈ q.applies_to
    · simp only [assignRequirements, if_pos h, List.mem_cons] at hm
      rcases hm with rfl | hm
      · exact ⟨rfl, rfl, by simp⟩
      · obtain ⟨h1, h2, h3⟩ := ih (n + 1) m hm
        exact ⟨h1, h2, by simp [h3]⟩
    · obtain ⟨h1, h2, h3⟩ := ih n m (by simpa [assignRequirements, if_neg h] using hm)
      exact ⟨h1, h2, by simp [h3]⟩

theorem assignRequirements_filter_count (sysId : String) (risk : RiskCategory)
    (fresh : Nat → String) (qs : List ComplianceRequirement) :
    ∀ (n : Nat) (q : ComplianceRequirement),
      (qs.map (fun r => r.id)).Nodup → q ∈ qs →
      ((assignRequirements sysId risk fresh qs n).1.filter
          (fun m => m.requirement_id == q.id)).length =
        if risk ∈ q.applies_to then 1 else 0 := by
  induction qs with
  | nil => intro n q _ hq; simp at hq
  | cons r rs ih =>
    intro n q hnd hq
    simp only [List.map_cons, List.nodup_cons] at hnd
    have hrid : r.id ∉ rs.map (fun x => x.id) := hnd.1
    have hnd' : (rs.map (fun x => x.id)).Nodup := hnd.2
    have hzero : ∀ n' : Nat,
        ((assignRequirements sysId risk fresh rs n').1.filter
            (fun m => m.requirement_id == r.id)) = [] := by
      intro n'
      refine List.filter_eq_nil_iff.mpr ?_
      intro m hm
      obtain ⟨_, _, h3⟩ := assignRequirements_mem sysId risk fresh rs n' m hm
      simp only [beq_iff_eq]
      intro hmr
      exact hrid (hmr ▸ h3)
    rcases List.mem_cons.mp hq with rfl | hq'
    · by_cases h : risk ∈ q.applies_to
      · simp only [assignRequirements, if_pos h, List.filter_cons]
        simp [hzero (n + 1), h]
      · simp only [assignRequirements, if_neg h]
        simp [hzero n, h]
    · have hqid : q.id ∈ rs.map (fun x => x.id) := List.mem_map_of_mem _ hq'
      have hne : (r.id == q.id) = false := by
        simp only [beq_eq_false_iff_ne]
        intro he
        exact hrid (he ▸ hqid)
      by_cases h : risk ∈ r.applies_to
      · simp only [assignRequirements, if_pos h, List.filter_cons]
        simp [hne, ih (n + 1) q hnd' hq']
      · simp only [assignRequirements, if_neg h]
        exact ih n q hnd' hq'

/-! ## C1: risk-based requirement assignment (`create_ai_system`) -/

/-- C1: a successful system creation assigns, per catalog requirement whose
`applies_to` set contains the system's risk category, exactly one mapping
with status `not_started` (and none for any requirement whose set does not
contain it), and reports exactly the number of such requirements as the
assigned count. -/
theorem c1_assignment (db : DB) (req : AISystemCreate) (newId : String)
    (fresh : Nat → String)
    (hnodup : (db.requirements.map (fun q => q.id)).Nodup) :
    (create_ai_system_run db req newId fresh true).2 =
      some (db.requirements.countP (fun q => decide (req.risk_category ∈ q.applies_to))) ∧
    (create_ai_system_run db req newId fresh true).1.mappings =
      db.mappings ++ (assignRequirements newId req.risk_category fresh db.requirements 0).1 ∧
    (∀ m ∈ (assignRequirements newId req.risk_category fresh db.requirements 0).1,
       m.status = ComplianceStatus.not_started ∧ m.ai_system_id = newId) ∧
    (∀ q ∈ db.requirements,
       ((assignRequirements newId req.risk_category fresh db.requirements 0).1.filter
           (fun m => m.requirement_id == q.id)).length =
         if req.risk_category ∈ q.applies_to then 1 else 0) := by
  refine ⟨?_, ?_, ?_, ?_⟩
  · simp [create_ai_system_run, create_ai_system_phase2, create_ai_system_phase1,
      assignRequirements_snd]
  · simp [create_ai_system_run, create_ai_system_phase2, create_ai_system_phase1]
  · intro m hm
    obtain ⟨h1, h2, _⟩ := assignRequirements_mem newId req.risk_category fresh db.requirements 0 m hm
    exact ⟨h1, h2⟩
  · intro q hq
    exact assignRequirements_filter_count newId req.risk_category fresh db.requirements 0 q hnodup hq

/-- The creation request of the C1/C2 concrete instances. -/
def c1req : AISystemCreate :=
  { name := "credit scorer", description := none, risk_category := .high,
    organization := none, department := none, owner_email := none }

/-- A two-entry catalog: one requirement applicable to `high`, one to
`limited` only. -/
def c1catalog : List ComplianceRequirement :=
  [{ id := "r1", article := "Article 9", title := "Risk Management System",
     description := "risk management", applies_to := [.high] },
   { id := "r2", article := "Article 52", title := "Transparency",
     description := "transparency obligations", applies_to := [.limited, .minimal] }]

/-- The database of the C1/C2 concrete instances. -/
def c1db : DB :=
  { systems := [], requirements := c1catalog, mappings := [], evidence := [] }

/-- Witness for `c1_assignment` at the concrete catalog. -/
theorem c1_assignment_witness :
    (c1db.requirements.map (fun q => q.id)).Nodup ∧
    ((create_ai_system_run c1db c1req "sys-1" (fun n => "map-" ++ toString n) true).2 =
      some (c1db.requirements.countP (fun q => decide (c1req.risk_category ∈ q.applies_to))) ∧
    (create_ai_system_run c1db c1req "sys-1" (fun n => "map-" ++ toString n) true).1.mappings =
      c1db.mappings ++
        (assignRequirements "sys-1" c1req.risk_category (fun n => "map-" ++ toString n)
          c1db.requirements 0).1 ∧
    (∀ m ∈ (assignRequirements "sys-1" c1req.risk_category (fun n => "map-" ++ toString n)
          c1db.requirements 0).1,
       m.status = ComplianceStatus.not_started ∧ m.ai_system_id = "sys-1") ∧
    (∀ q ∈ c1db.requirements,
       ((assignRequirements "sys-1" c1req.risk_category (fun n => "map-" ++ toString n)
            c1db.requirements 0).1.filter
           (fun m => m.requirement_id == q.id)).length =
         if c1req.risk_category ∈ q.applies_to then 1 else 0)) :=
  ⟨by decide, c1_assignment c1db c1req "sys-1" (fun n => "map-" ++ toString n) (by decide)⟩

/-! ## C2: creation/assignment atomicity (`create_ai_system`) -/

/-- C2, counterexample: the claim asserts that a failure during mapping
creation aborts with no system row persisted.  False on the code: the system
row is committed by the first `db.commit()` (src/app.py line 161) before any
mapping is created, so when the mapping-creation half fails, the aborted
operation (`none` count) nevertheless leaves the system row durable — here
the store goes from no systems to exactly the new system, with no mappings. -/
theorem c2_counterexample :
    (create_ai_system_run c1db c1req "sys-1" (fun n => "map-" ++ toString n) false).2 = none ∧
    c1db.systems = [] ∧
    (create_ai_system_run c1db c1req "sys-1" (fun n => "map-" ++ toString n) false).1.systems =
      [mkAISystem c1req "sys-1"] ∧
    (create_ai_system_run c1db c1req "sys-1" (fun n => "map-" ++ toString n) false).1.mappings = [] :=
  ⟨rfl, rfl, rfl, rfl⟩

/-- C2, amended: system creation and requirement assignment are two separate
commits, not one atomic unit.  The system row is committed first; a failure
during mapping creation aborts the operation with the system row already
persisted and no mappings persisted, leaving the system registered without
its assigned mappings; when mapping creation succeeds, both the system row
and its mappings are persisted. -/
theorem c2_amended (db : DB) (req : AISystemCreate) (newId : String) (fresh : Nat → String) :
    (create_ai_system_run db req newId fresh false).1.systems =
      db.systems ++ [mkAISystem req newId] ∧
    (create_ai_system_run db req newId fresh false).1.mappings = db.mappings ∧
    (create_ai_system_run db req newId fresh false).2 = none ∧
    (create_ai_system_run db req newId fresh true).1.systems =
      db.systems ++ [mkAISystem req newId] ∧
    (create_ai_system_run db req newId fresh true).1.mappings =
      db.mappings ++ (assignRequirements newId req.risk_category fresh db.requirements 0).1 := by
  refine ⟨rfl, rfl, rfl, ?_, ?_⟩ <;>
    simp [create_ai_system_run, create_ai_system_phase1, create_ai_system_phase2]

/-! ## C4: storage-key collisions (`generate_s3_key`) -/

/-- C4, counterexample: the claim asserts that two distinct filenames uploaded
with the same organization, system, mapping and second always give distinct
storage keys.  False: `"a/b.pdf"` and `"a_b.pdf"` are distinct filenames, but
the sanitization maps the slash to an underscore, so both derive the very same
key. -/
theorem c4_counterexample :
    "a/b.pdf" ≠ "a_b.pdf" ∧
    generate_s3_key (some "org") "sys" "map" "a/b.pdf" "20260101000000" =
      generate_s3_key (some "org") "sys" "map" "a_b.pdf" "20260101000000" := by
  exact ⟨by decide, rfl⟩

/-- C4, amended: for every pair of filenames that are still distinct after
path-separator sanitization (replacing `/` and `\` by `_`), the derived
storage keys are distinct when organization, system id, mapping id and the
second-precision timestamp agree; the key is composed of the organization
(or the literal fallback), system id, mapping id, timestamp and the
sanitized filename. -/
theorem c4_amended (organization : Option String) (system_id mapping_id : String)
    (f₁ f₂ : String) (now_ts : String)
    (h : sanitizeFilename f₁ ≠ sanitizeFilename f₂) :
    generate_s3_key organization system_id mapping_id f₁ now_ts ≠
      generate_s3_key organization system_id mapping_id f₂ now_ts := by
  intro hk
  apply h
  have hd := congrArg String.data hk
  simp only [generate_s3_key, String.data_append] at hd
  exact String.ext (List.append_cancel_left hd)

/-- Witness for `c4_amended` at concrete inputs. -/
theorem c4_amended_witness :
    sanitizeFilename "a.pdf" ≠ sanitizeFilename "b.pdf" ∧
    generate_s3_key (some "org") "sys" "map" "a.pdf" "20260101000000" ≠
      generate_s3_key (some "org") "sys" "map" "b.pdf" "20260101000000" :=
  ⟨by decide, c4_amended (some "org") "sys" "map" "a.pdf" "b.pdf" "20260101000000" (by decide)⟩

/-! ## C5: compliance summary (`get_system_compliance`) -/

/-- General shape of the compliance summary, shared by the C5 theorem and its
concrete instance. -/
theorem compliance_summary_cases (db : DB) (system_id : String) (sys : AISystem)
    (hfind : db.systems.find? (fun s => s.id == system_id) = some sys) :
    (db.mappings.filter (fun m => m.ai_system_id == system_id) = [] →
       get_system_compliance db system_id =
         .ok { total_requirements := 0, compliance_percentage := 0,
               status_breakdown := none }) ∧
    (db.mappings.filter (fun m => m.ai_system_id == system_id) ≠ [] →
       get_system_compliance db system_id =
         .ok { total_requirements :=
                 (db.mappings.filter (fun m => m.ai_system_id == system_id)).length,
               compliance_percentage :=
                 round2 ((((db.mappings.filter (fun m => m.ai_system_id == system_id)).countP
                     (fun m => m.status == ComplianceStatus.completed) : ℚ) /
                    ((db.mappings.filter (fun m => m.ai_system_id == system_id)).length : ℚ)) * 100),
               status_breakdown := some
                 { not_started :=
                     (db.mappings.filter (fun m => m.ai_system_id == system_id)).countP
                       (fun m => m.status == ComplianceStatus.not_started),
                   in_progress :=
                     (db.mappings.filter (fun m => m.ai_system_id == system_id)).countP
                       (fun m => m.status == ComplianceStatus.in_progress),
                   completed :=
                     (db.mappings.filter (fun m => m.ai_system_id == system_id)).countP
                       (fun m => m.status == ComplianceStatus.completed),
                   non_compliant :=
                     (db.mappings.filter (fun m => m.ai_system_id == system_id)).countP
                       (fun m => m.status == ComplianceStatus.non_compliant) } }) := by
  constructor
  · intro hnil
    simp [get_system_compliance, hfind, hnil]
  · intro hne
    have hlen : (db.mappings.filter (fun m => m.ai_system_id == system_id)).length ≠ 0 := by
      simpa [List.length_eq_zero] using hne
    simp only [get_system_compliance, hfind, hlen, if_neg hlen, foldl_bumpCount]
    simp

/-- The system and mappings of C5's concrete instance: two `completed`, one
`in_progress`, one `not_started` mapping on system `s1`. -/
def c5sys : AISystem :=
  { id := "s1", name := "demo", description := none, risk_category := .high,
    organization := none, department := none, owner_email := none }

/-- A mapping of the C5 concrete instance. -/
def c5mapping (i : Nat) (st : ComplianceStatus) : RequirementMapping :=
  { id := "m" ++ toString i, ai_system_id := "s1", requirement_id := "r" ++ toString i,
    status := st, notes := none, updated_by := none }

/-- The database of C5's concrete instance. -/
def c5db : DB :=
  { systems := [c5sys], requirements := [],
    mappings := [c5mapping 1 .completed, c5mapping 2 .completed,
                 c5mapping 3 .in_progress, c5mapping 4 .not_started],
    evidence := [] }

/-- C5: for an existing system, the compliance summary returns percentage 0
and the empty breakdown when the system has no mappings; otherwise a
breakdown keyed by all four status values with each key holding the exact
count of mappings in that status (zero-filled when none), a total equal to
the number of mappings, and a percentage equal to
`round(completed / total * 100, 2)`; in particular the concrete instance
with counts `{completed: 2, in_progress: 1, not_started: 1}` yields
percentage `50` with a zero-filled `non_compliant` key. -/
theorem c5_compliance_summary (db : DB) (system_id : String) (sys : AISystem)
    (hfind : db.systems.find? (fun s => s.id == system_id) = some sys) :
    ((db.mappings.filter (fun m => m.ai_system_id == system_id) = [] →
       get_system_compliance db system_id =
         .ok { total_requirements := 0, compliance_percentage := 0,
               status_breakdown := none }) ∧
     (db.mappings.filter (fun m => m.ai_system_id == system_id) ≠ [] →
       get_system_compliance db system_id =
         .ok { total_requirements :=
                 (db.mappings.filter (fun m => m.ai_system_id == system_id)).length,
               compliance_percentage :=
                 round2 ((((db.mappings.filter (fun m => m.ai_system_id == system_id)).countP
                     (fun m => m.status == ComplianceStatus.completed) : ℚ) /
                    ((db.mappings.filter (fun m => m.ai_system_id == system_id)).length : ℚ)) * 100),
               status_breakdown := some
                 { not_started :=
                     (db.mappings.filter (fun m => m.ai_system_id == system_id)).countP
                       (fun m => m.status == ComplianceStatus.not_started),
                   in_progress :=
                     (db.mappings.filter (fun m => m.ai_system_id == system_id)).countP
                       (fun m => m.status == ComplianceStatus.in_progress),
                   completed :=
                     (db.mappings.filter (fun m => m.ai_system_id == system_id)).countP
                       (fun m => m.status == ComplianceStatus.completed),
                   non_compliant :=
                     (db.mappings.filter (fun m => m.ai_system_id == system_id)).countP
                       (fun m => m.status == ComplianceStatus.non_compliant) } })) ∧
    get_system_compliance c5db "s1" =
      .ok { total_requirements := 4, compliance_percentage := 50,
            status_breakdown := some
              { not_started := 1, in_progress := 1, completed := 2, non_compliant := 0 } } := by
  refine ⟨compliance_summary_cases db system_id sys hfind, ?_⟩
  have h := (compliance_summary_cases c5db "s1" c5sys rfl).2 (by decide)
  have hc : (c5db.mappings.filter (fun m => m.ai_system_id == "s1")).countP
      (fun m => m.status == ComplianceStatus.completed) = 2 := by decide
  have hl : (c5db.mappings.filter (fun m => m.ai_system_id == "s1")).length = 4 := by decide
  have hn : (c5db.mappings.filter (fun m => m.ai_system_id == "s1")).countP
      (fun m => m.status == ComplianceStatus.not_started) = 1 := by decide
  have hi : (c5db.mappings.filter (fun m => m.ai_system_id == "s1")).countP
      (fun m => m.status == ComplianceStatus.in_progress) = 1 := by decide
  have hx : (c5db.mappings.filter (fun m => m.ai_system_id == "s1")).countP
      (fun m => m.status == ComplianceStatus.non_compliant) = 0 := by decide
  have h50 : round2 (((2 : ℕ) : ℚ) / ((4 : ℕ) : ℚ) * 100) = 50 := by
    norm_num [round2, roundHalfEven]
  rw [h, hc, hl, hn, hi, hx, h50]

/-- Witness for `c5_compliance_summary` at the concrete instance. -/
theorem c5_witness :
    c5db.systems.find? (fun s => s.id == "s1") = some c5sys ∧
    (((c5db.mappings.filter (fun m => m.ai_system_id == "s1") = [] →
       get_system_compliance c5db "s1" =
         .ok { total_requirements := 0, compliance_percentage := 0,
               status_breakdown := none }) ∧
     (c5db.mappings.filter (fun m => m.ai_system_id == "s1") ≠ [] →
       get_system_compliance c5db "s1" =
         .ok { total_requirements :=
                 (c5db.mappings.filter (fun m => m.ai_system_id == "s1")).length,
               compliance_percentage :=
                 round2 ((((c5db.mappings.filter (fun m => m.ai_system_id == "s1")).countP
                     (fun m => m.status == ComplianceStatus.completed) : ℚ) /
                    ((c5db.mappings.filter (fun m => m.ai_system_id == "s1")).length : ℚ)) * 100),
               status_breakdown := some
                 { not_started :=
                     (c5db.mappings.filter (fun m => m.ai_system_id == "s1")).countP
                       (fun m => m.status == ComplianceStatus.not_started),
                   in_progress :=
                     (c5db.mappings.filter (fun m => m.ai_system_id == "s1")).countP
                       (fun m => m.status == ComplianceStatus.in_progress),
                   completed :=
                     (c5db.mappings.filter (fun m => m.ai_system_id == "s1")).countP
                       (fun m => m.status == ComplianceStatus.completed),
                   non_compliant :=
                     (c5db.mappings.filter (fun m => m.ai_system_id == "s1")).countP
                       (fun m => m.status == ComplianceStatus.non_compliant) } })) ∧
    get_system_compliance c5db "s1" =
      .ok { total_requirements := 4, compliance_percentage := 50,
            status_breakdown := some
              { not_started := 1, in_progress := 1, completed := 2, non_compliant := 0 } }) :=
  ⟨rfl, c5_compliance_summary c5db "s1" c5sys rfl⟩

/-! ## C6: status updates (`update_requirement_status`) -/

theorem find?_updateFirst_of_pres (p : α → Bool) (f : α → α)
    (hpf : ∀ a, p a = true → p (f a) = true) :
    ∀ (l : List α) (x : α), l.find? p = some x →
      (updateFirst p f l).find? p = some (f x) := by
  intro l
  induction l with
  | nil => intro x h; simp [List.find?] at h
  | cons y ys ih =>
    intro x h
    by_cases hy : p y = true
    · rw [List.find?_cons_of_pos _ hy] at h
      obtain rfl := Option.some.inj h
      simp only [updateFirst, if_pos hy]
      exact List.find?_cons_of_pos _ (hpf _ hy)
    · rw [List.find?_cons_of_neg _ hy] at h
      simp only [updateFirst, if_neg hy]
      rw [List.find?_cons_of_neg _ hy]
      exact ih x h

theorem update_requirement_status_found (db : DB) (mid : String)
    (u : RequirementStatusUpdate) (m₀ : RequirementMapping)
    (h : db.mappings.find? (fun m => m.id == mid) = some m₀) :
    update_requirement_status db mid u =
      .ok { db with
            mappings := updateFirst (fun m => m.id == mid)
              (applyStatusUpdate u) db.mappings } := by
  simp [update_requirement_status, h]

theorem runStatusUpdates_found (mid : String) (us : List RequirementStatusUpdate) :
    ∀ (db : DB) (m₀ : RequirementMapping),
      db.mappings.find? (fun m => m.id == mid) = some m₀ →
      (runStatusUpdates db mid us).map
          (fun db' => db'.mappings.find? (fun m => m.id == mid)) =
        .ok (some (us.foldl (fun m u => applyStatusUpdate u m) m₀)) := by
  induction us with
  | nil =>
    intro db m₀ h
    simp [runStatusUpdates, Except.map, h]
  | cons u us ih =>
    intro db m₀ h
    have hstep := update_requirement_status_found db mid u m₀ h
    have hfind : ({ db with
        mappings := updateFirst (fun m => m.id == mid)
          (applyStatusUpdate u) db.mappings } : DB).mappings.find?
          (fun m => m.id == mid) = some (applyStatusUpdate u m₀) :=
      find?_updateFirst_of_pres _ _
        (fun a ha => by simpa [applyStatusUpdate] using ha) db.mappings m₀ h
    simp only [runStatusUpdates, hstep, List.foldl_cons]
    exact ih _ _ hfind

theorem foldl_applyStatusUpdate (us : List RequirementStatusUpdate) :
    ∀ m₀ : RequirementMapping,
      (us.foldl (fun m u => applyStatusUpdate u m) m₀).status =
        us.foldl (fun _ u => u.status) m₀.status ∧
      (us.foldl (fun m u => applyStatusUpdate u m) m₀).notes =
        us.foldl (fun v u => match u.notes with | some n => some n | none => v) m₀.notes ∧
      (us.foldl (fun m u => applyStatusUpdate u m) m₀).updated_by =
        us.foldl (fun v u => match u.updated_by with | some e => some e | none => v)
          m₀.updated_by := by
  induction us with
  | nil => intro m₀; exact ⟨rfl, rfl, rfl⟩
  | cons u us ih =>
    intro m₀
    simpa [applyStatusUpdate] using ih (applyStatusUpdate u m₀)

theorem foldl_status_getLast (us : List RequirementStatusUpdate) :
    ∀ (s₀ : ComplianceStatus) (u : RequirementStatusUpdate), us.getLast? = some u →
      us.foldl (fun _ v => v.status) s₀ = u.status := by
  induction us with
  | nil => intro s₀ u h; simp at h
  | cons v vs ih =>
    intro s₀ u h
    cases vs with
    | nil =>
      simp only [List.getLast?_singleton, Option.some.injEq] at h
      subst h
      rfl
    | cons w ws =>
      rw [List.getLast?_cons_cons] at h
      exact ih v.status u h

/-- C6: `update_requirement_status` fails with NotFound when no mapping has
the requested id (an error leaves the store unchanged, since nothing is
committed); on success the status is overwritten unconditionally while notes
and updater are overwritten only when supplied; consequently, after any
successful sequence of updates the mapping's status is the last update's
status, and its notes/updater come from the most recent update that supplied
them, falling back to the pre-sequence values when none did. -/
theorem c6_update_status (db : DB) (mid : String) :
    (∀ u, db.mappings.find? (fun m => m.id == mid) = none →
       update_requirement_status db mid u =
         .error (404, "Requirement mapping not found")) ∧
    (∀ m₀, db.mappings.find? (fun m => m.id == mid) = some m₀ →
      ∀ us : List RequirementStatusUpdate,
        (runStatusUpdates db mid us).map
            (fun db' => db'.mappings.find? (fun m => m.id == mid)) =
          .ok (some (us.foldl (fun m u => applyStatusUpdate u m) m₀)) ∧
        (∀ u, us.getLast? = some u →
           (us.foldl (fun m u => applyStatusUpdate u m) m₀).status = u.status) ∧
        (us.foldl (fun m u => applyStatusUpdate u m) m₀).notes =
          us.foldl (fun v u => match u.notes with | some n => some n | none => v)
            m₀.notes ∧
        (us.foldl (fun m u => applyStatusUpdate u m) m₀).updated_by =
          us.foldl (fun v u => match u.updated_by with | some e => some e | none => v)
            m₀.updated_by) := by
  constructor
  · intro u h
    simp [update_requirement_status, h]
  · intro m₀ h us
    refine ⟨runStatusUpdates_found mid us db m₀ h, ?_,
      (foldl_applyStatusUpdate us m₀).2.1, (foldl_applyStatusUpdate us m₀).2.2⟩
    intro u hu
    rw [(foldl_applyStatusUpdate us m₀).1]
    exact foldl_status_getLast us m₀.status u hu

/-- The mapping of the C6 concrete instance. -/
def c6m : RequirementMapping :=
  { id := "m1", ai_system_id := "s1", requirement_id := "r1",
    status := .not_started, notes := none, updated_by := none }

/-- The database of the C6 concrete instance. -/
def c6db : DB :=
  { systems := [c5sys], requirements := [], mappings := [c6m], evidence := [] }

/-- The update sequence of the C6 concrete instance: the first call supplies
notes, the second supplies only status and updater. -/
def c6updates : List RequirementStatusUpdate :=
  [{ status := .in_progress, notes := some "started", updated_by := none },
   { status := .completed, notes := none, updated_by := some "bob@hexidus.io" }]

/-- Witness for `c6_update_status` at the concrete instance. -/
theorem c6_update_status_witness :
    c6db.mappings.find? (fun m => m.id == "m1") = some c6m ∧
    ((runStatusUpdates c6db "m1" c6updates).map
        (fun db' => db'.mappings.find? (fun m => m.id == "m1")) =
      .ok (some (c6updates.foldl (fun m u => applyStatusUpdate u m) c6m)) ∧
    (∀ u, c6updates.getLast? = some u →
       (c6updates.foldl (fun m u => applyStatusUpdate u m) c6m).status = u.status) ∧
    (c6updates.foldl (fun m u => applyStatusUpdate u m) c6m).notes =
      c6updates.foldl (fun v u => match u.notes with | some n => some n | none => v)
        c6m.notes ∧
    (c6updates.foldl (fun m u => applyStatusUpdate u m) c6m).updated_by =
      c6updates.foldl (fun v u => match u.updated_by with | some e => some e | none => v)
        c6m.updated_by) :=
  ⟨rfl, (c6_update_status c6db "m1").2 c6m rfl c6updates⟩

/-! ## C7: soft-deleted evidence exclusion -/

theorem mem_insertByCreatedDesc (e x : Evidence) (l : List Evidence) :
    x ∈ insertByCreatedDesc e l ↔ x = e ∨ x ∈ l := by
  induction l with
  | nil => simp [insertByCreatedDesc]
  | cons y ys ih =>
    by_cases h : e.created_at ≤ y.created_at
    · simp only [insertByCreatedDesc, if_pos h, List.mem_cons, ih]
      tauto
    · simp only [insertByCreatedDesc, if_neg h, List.mem_cons]

theorem mem_sortByCreatedDesc (x : Evidence) (l : List Evidence) :
    x ∈ sortByCreatedDesc l ↔ x ∈ l := by
  induction l with
  | nil => simp [sortByCreatedDesc]
  | cons y ys ih => simp [sortByCreatedDesc, mem_insertByCreatedDesc, ih]

theorem evidence_eq_of_id {l : List Evidence}
    (hnodup : (l.map (fun e => e.id)).Nodup)
    {x y : Evidence} (hx : x ∈ l) (hy : y ∈ l) (hid : x.id = y.id) : x = y :=
  List.inj_on_of_nodup_map hnodup hx hy hid

theorem get_evidence_of_deleted (db : DB)
    (hnodup : (db.evidence.map (fun e => e.id)).Nodup)
    (e : Evidence) (he : e ∈ db.evidence) (hdel : e.deleted_at ≠ none) :
    db.evidence.find? (fun x => x.id == e.id && x.deleted_at == none) = none := by
  rw [List.find?_eq_none]
  intro x hx
  simp only [Bool.and_eq_true, beq_iff_eq, not_and]
  intro hid hdel'
  exact hdel (by rw [← evidence_eq_of_id hnodup hx he hid]; exact hdel')

theorem list_requirement_evidence_spec (db : DB) (mid : String) (page ps : Nat)
    (out : EvidencePage) (hok : list_requirement_evidence db mid page ps = .ok out) :
    out.total = (liveEvidenceForMapping db.evidence mid).length ∧
    ∀ x ∈ out.items, x ∈ liveEvidenceForMapping db.evidence mid := by
  unfold list_requirement_evidence at hok
  cases hfind : db.mappings.find? (fun m => m.id == mid) with
  | none => rw [hfind] at hok; simp at hok
  | some m =>
    rw [hfind] at hok
    simp only [Except.ok.injEq] at hok
    subst hok
    refine ⟨rfl, ?_⟩
    intro x hx
    have h1 : x ∈ (sortByCreatedDesc (liveEvidenceForMapping db.evidence mid)).drop
        ((page - 1) * min ps 100) :=
      List.take_subset _ _ hx
    have h2 : x ∈ sortByCreatedDesc (liveEvidenceForMapping db.evidence mid) :=
      List.drop_subset _ _ h1
    exact (mem_sortByCreatedDesc x _).mp h2

theorem list_system_evidence_spec (db : DB) (sid : String) (page ps : Nat)
    (out : EvidencePage) (hok : list_system_evidence db sid page ps = .ok out) :
    out.total = (liveEvidenceForSystem db.evidence sid).length ∧
    ∀ x ∈ out.items, x ∈ liveEvidenceForSystem db.evidence sid := by
  unfold list_system_evidence at hok
  cases hfind : db.systems.find? (fun s => s.id == sid) with
  | none => rw [hfind] at hok; simp at hok
  | some s =>
    rw [hfind] at hok
    simp only [Except.ok.injEq] at hok
    subst hok
    refine ⟨rfl, ?_⟩
    intro x hx
    have h1 : x ∈ (sortByCreatedDesc (liveEvidenceForSystem db.evidence sid)).drop
        ((page - 1) * min ps 100) :=
      List.take_subset _ _ hx
    have h2 : x ∈ sortByCreatedDesc (liveEvidenceForSystem db.evidence sid) :=
      List.drop_subset _ _ h1
    exact (mem_sortByCreatedDesc x _).mp h2

theorem foldl_bumpStat (l : List Evidence) (r : EvidenceStats) :
    l.foldl (fun r e => bumpStat r e.status) r =
      { current := r.current + l.countP (fun e => e.status == EvidenceStatus.current),
        expiring_soon :=
          r.expiring_soon + l.countP (fun e => e.status == EvidenceStatus.expiring_soon),
        expired := r.expired + l.countP (fun e => e.status == EvidenceStatus.expired),
        archived := r.archived + l.countP (fun e => e.status == EvidenceStatus.archived),
        total := r.total + l.length } := by
  induction l generalizing r with
  | nil => simp
  | cons e es ih =>
    rw [List.foldl_cons, ih]
    cases h : e.status <;>
      simp [bumpStat, h, List.countP_cons, EvidenceStats.mk.injEq] <;> omega

theorem find?_live_after_softdelete (eid : String) (now : Nat) :
    ∀ l : List Evidence, (l.map (fun e => e.id)).Nodup →
      ∀ x, l.find? (fun e => e.id == eid && e.deleted_at == none) = some x →
      (updateFirst (fun e => e.id == eid && e.deleted_at == none)
          (fun e => { e with deleted_at := some now }) l).find?
        (fun e => e.id == eid && e.deleted_at == none) = none := by
  intro l
  induction l with
  | nil => intro _ x h; simp [List.find?] at h
  | cons y ys ih =>
    intro hnd x h
    simp only [List.map_cons, List.nodup_cons] at hnd
    by_cases hy : (y.id == eid && y.deleted_at == none) = true
    · have hyid : y.id = eid := by
        have := (Bool.and_eq_true _ _).mp hy
        exact beq_iff_eq.mp this.1
      simp only [updateFirst, if_pos hy]
      rw [List.find?_eq_none]
      intro z hz
      rcases List.mem_cons.mp hz with rfl | hz'
      · simp
      · simp only [Bool.and_eq_true, beq_iff_eq, not_and]
        intro hzid _
        have hmem : z.id ∈ ys.map (fun e => e.id) := List.mem_map_of_mem _ hz'
        rw [hzid, ← hyid] at hmem
        exact absurd hmem hnd.1
    · have hyf : (y.id == eid && y.deleted_at == none) = false := by simpa using hy
      simp only [updateFirst, if_neg hy]
      simp only [List.find?, hyf] at h ⊢
      exact ih hnd.2 x h

/-- C7: evidence with a non-null `deleted_at` is excluded from both evidence
listings and their totals, from the single-record lookup, and from the
per-mapping statistics (whose counts range over live rows only); and a soft
delete succeeds at most once per record — a second delete call on the same
id finds no live record and returns NotFound. -/
theorem c7_soft_delete_exclusion (db : DB)
    (hnodup : (db.evidence.map (fun e => e.id)).Nodup) :
    (∀ e ∈ db.evidence, e.deleted_at ≠ none →
       get_evidence db e.id = .error (404, "Evidence not found") ∧
       (∀ mid, e ∉ liveEvidenceForMapping db.evidence mid) ∧
       (∀ sid, e ∉ liveEvidenceForSystem db.evidence sid) ∧
       (∀ mid page ps out, list_requirement_evidence db mid page ps = .ok out →
          e ∉ out.items ∧ out.total = (liveEvidenceForMapping db.evidence mid).length) ∧
       (∀ sid page ps out, list_system_evidence db sid page ps = .ok out →
          e ∉ out.items ∧ out.total = (liveEvidenceForSystem db.evidence sid).length) ∧
       (∀ now, delete_evidence db e.id now = .error (404, "Evidence not found"))) ∧
    (∀ mid st, get_evidence_stats db mid = .ok st →
       st.total = (liveEvidenceForMapping db.evidence mid).length ∧
       st.current = (liveEvidenceForMapping db.evidence mid).countP
         (fun x => x.status == EvidenceStatus.current) ∧
       st.expiring_soon = (liveEvidenceForMapping db.evidence mid).countP
         (fun x => x.status == EvidenceStatus.expiring_soon) ∧
       st.expired = (liveEvidenceForMapping db.evidence mid).countP
         (fun x => x.status == EvidenceStatus.expired) ∧
       st.archived = (liveEvidenceForMapping db.evidence mid).countP
         (fun x => x.status == EvidenceStatus.archived)) ∧
    (∀ eid now db', delete_evidence db eid now = .ok db' →
       ∀ now', delete_evidence db' eid now' = .error (404, "Evidence not found")) := by
  refine ⟨?_, ?_, ?_⟩
  · intro e he hdel
    have hnone := get_evidence_of_deleted db hnodup e he hdel
    have hnotlive : ∀ p : Evidence → Bool,
        e ∉ db.evidence.filter (fun x => p x && x.deleted_at == none) := by
      intro p hmem
      have := (List.mem_filter.mp hmem).2
      simp only [Bool.and_eq_true, beq_iff_eq] at this
      exact hdel this.2
    refine ⟨by simp [get_evidence, hnone], ?_, ?_, ?_, ?_, ?_⟩
    · intro mid
      exact hnotlive (fun x => x.requirement_mapping_id == some mid)
    · intro sid
      exact hnotlive (fun x => x.ai_system_id == sid)
    · intro mid page ps out hok
      obtain ⟨ht, hsub⟩ := list_requirement_evidence_spec db mid page ps out hok
      exact ⟨fun hmem => hnotlive (fun x => x.requirement_mapping_id == some mid)
        (hsub e hmem), ht⟩
    · intro sid page ps out hok
      obtain ⟨ht, hsub⟩ := list_system_evidence_spec db sid page ps out hok
      exact ⟨fun hmem => hnotlive (fun x => x.ai_system_id == sid) (hsub e hmem), ht⟩
    · intro now
      simp [delete_evidence, hnone]
  · intro mid st hok
    unfold get_evidence_stats at hok
    cases hfind : db.mappings.find? (fun m => m.id == mid) with
    | none => rw [hfind] at hok; simp at hok
    | some m =>
      rw [hfind] at hok
      simp only [Except.ok.injEq] at hok
      subst hok
      rw [foldl_bumpStat]
      simp [Nat.add_comm]
  · intro eid now db' hok
    unfold delete_evidence at hok
    cases hfind : db.evidence.find? (fun e => e.id == eid && e.deleted_at == none) with
    | none => rw [hfind] at hok; simp at hok
    | some x =>
      rw [hfind] at hok
      simp only [Except.ok.injEq] at hok
      subst hok
      have hnone := find?_live_after_softdelete eid now db.evidence hnodup x hfind
      simp [delete_evidence, hnone]

/-- Evidence rows of the C7/C8/C9 concrete instances. -/
def mkEvidenceRow (i : Nat) (deleted : Option Nat) : Evidence :=
  { id := "e" ++ toString i, ai_system_id := "s1",
    requirement_mapping_id := some "m1", file_name := "doc.pdf",
    file_type := "pdf", file_size := 10, s3_key := "k" ++ toString i,
    description := none, status := .current, expiration_date := none,
    uploaded_by := none, deleted_at := deleted, created_at := i }

/-- The database of the C7 concrete instance: one live and one soft-deleted
evidence row on mapping `m1`. -/
def c7db : DB :=
  { systems := [c5sys], requirements := [], mappings := [c6m],
    evidence := [mkEvidenceRow 1 none, mkEvidenceRow 2 (some 5)] }

/-- Witness for `c7_soft_delete_exclusion` at the concrete instance. -/
theorem c7_soft_delete_exclusion_witness :
    (c7db.evidence.map (fun e => e.id)).Nodup ∧
    (mkEvidenceRow 2 (some 5) ∈ c7db.evidence ∧ (mkEvidenceRow 2 (some 5)).deleted_at ≠ none) ∧
    get_evidence c7db "e2" = .error (404, "Evidence not found") ∧
    (∀ now, delete_evidence c7db "e2" now = .error (404, "Evidence not found")) := by
  have h := (c7_soft_delete_exclusion c7db (by decide)).1 (mkEvidenceRow 2 (some 5))
    (by decide) (by decide)
  exact ⟨by decide, ⟨by decide, by decide⟩, by simpa using h.1, h.2.2.2.2.2⟩

/-! ## C8: cascade deletion (`delete_ai_system`) -/

theorem find?_eraseP_none (sid : String) :
    ∀ l : List AISystem, (l.map (fun s => s.id)).Nodup →
      (l.eraseP (fun s => s.id == sid)).find? (fun s => s.id == sid) = none := by
  intro l
  induction l with
  | nil => intro _; rfl
  | cons y ys ih =>
    intro hnd
    simp only [List.map_cons, List.nodup_cons] at hnd
    by_cases hy : (y.id == sid) = true
    · simp only [List.eraseP_cons, hy, cond_true]
      rw [List.find?_eq_none]
      intro z hz
      simp only [beq_iff_eq]
      intro hzid
      have hmem : z.id ∈ ys.map (fun s => s.id) := List.mem_map_of_mem _ hz
      rw [hzid, ← beq_iff_eq.mp hy] at hmem
      exact absurd hmem hnd.1
    · have hyf : (y.id == sid) = false := by simpa using hy
      simp only [List.eraseP_cons, hyf, cond_false]
      simp only [List.find?, hyf]
      exact ih hnd.2

/-- C8: deleting an existing system removes, in one all-or-nothing step,
every evidence row of the system (hard delete — soft-deleted rows included,
since the filter is on the owning system alone), every requirement mapping of
the system, and the system row itself; afterwards a read of that system id
returns NotFound and no mapping or evidence of the system remains, while rows
of other systems and the requirement catalog are untouched.  Deleting a
missing system id fails with NotFound, leaving the state unchanged. -/
theorem c8_cascade_delete (db : DB) (sid : String)
    (hnodup : (db.systems.map (fun s => s.id)).Nodup) :
    (db.systems.find? (fun s => s.id == sid) = none →
       delete_ai_system db sid = .error (404, "AI system not found")) ∧
    (∀ s₀, db.systems.find? (fun s => s.id == sid) = some s₀ →
       ∀ db', delete_ai_system db sid = .ok db' →
         (∀ e, e ∈ db'.evidence ↔ e ∈ db.evidence ∧ e.ai_system_id ≠ sid) ∧
         (∀ m, m ∈ db'.mappings ↔ m ∈ db.mappings ∧ m.ai_system_id ≠ sid) ∧
         get_ai_system db' sid = .error (404, "AI system not found") ∧
         db'.evidence.filter (fun e => e.ai_system_id == sid) = [] ∧
         db'.mappings.filter (fun m => m.ai_system_id == sid) = [] ∧
         db'.requirements = db.requirements) := by
  constructor
  · intro h
    simp [delete_ai_system, h]
  · intro s₀ hfind db' hok
    unfold delete_ai_system at hok
    rw [hfind] at hok
    simp only [Except.ok.injEq] at hok
    subst hok
    refine ⟨?_, ?_, ?_, ?_, ?_, rfl⟩
    · intro e
      simp [List.mem_filter]
    · intro m
      simp [List.mem_filter]
    · have := find?_eraseP_none sid db.systems hnodup
      simp [get_ai_system, this]
    · rw [List.filter_eq_nil_iff]
      intro e he
      have := (List.mem_filter.mp he).2
      simp only [Bool.not_eq_true', beq_eq_false_iff_ne, ne_eq] at this
      simpa using this
    · rw [List.filter_eq_nil_iff]
      intro m hm
      have := (List.mem_filter.mp hm).2
      simp only [Bool.not_eq_true', beq_eq_false_iff_ne, ne_eq] at this
      simpa using this

/-- The database of the C8 concrete instance: one system owning one mapping,
one live evidence row and one soft-deleted evidence row. -/
def c8db : DB :=
  { systems := [c5sys], requirements := c1catalog, mappings := [c6m],
    evidence := [mkEvidenceRow 1 none, mkEvidenceRow 2 (some 5)] }

/-- The state after cascade-deleting system `s1` from `c8db`. -/
def c8post : DB :=
  { systems := [], requirements := c1catalog, mappings := [], evidence := [] }

/-- Witness for `c8_cascade_delete` at the concrete instance. -/
theorem c8_cascade_delete_witness :
    (c8db.systems.map (fun s => s.id)).Nodup ∧
    c8db.systems.find? (fun s => s.id == "s1") = some c5sys ∧
    delete_ai_system c8db "s1" = .ok c8post ∧
    ((∀ e, e ∈ c8post.evidence ↔ e ∈ c8db.evidence ∧ e.ai_system_id ≠ "s1") ∧
     (∀ m, m ∈ c8post.mappings ↔ m ∈ c8db.mappings ∧ m.ai_system_id ≠ "s1") ∧
     get_ai_system c8post "s1" = .error (404, "AI system not found") ∧
     c8post.evidence.filter (fun e => e.ai_system_id == "s1") = [] ∧
     c8post.mappings.filter (fun m => m.ai_system_id == "s1") = [] ∧
     c8post.requirements = c8db.requirements) :=
  ⟨by decide, rfl, rfl,
   (c8_cascade_delete c8db "s1" (by decide)).2 c5sys rfl c8post rfl⟩

/-! ## C9: evidence metadata update (`update_evidence`) -/

/-- C9: on a live evidence row, the metadata update is all-or-nothing per
call.  A supplied expiration date that does not parse fails with the date
validation error regardless of the other fields, and a supplied status
outside the four freshness values fails with the status validation error —
in both cases no new state is produced, so no field change is persisted,
including a description supplied in the same call (the session's pending
field assignments are discarded without a commit).  When every supplied
field is valid, exactly the supplied fields are overwritten on the found
row and the rest keep their prior values.  (Failing dates are restricted to
ASCII strings, the domain on which `parseDate` is faithful to CPython's
`strptime`; an accepted parse is faithful unconditionally, since `parseDate`
only accepts strings `strptime` accepts, with the same value.) -/
theorem c9_update_evidence (db : DB) (eid : String) (e₀ : Evidence)
    (hfind : db.evidence.find? (fun e => e.id == eid && e.deleted_at == none) = some e₀) :
    (∀ d st ds, allAscii ds = true → parseDate ds = none →
       update_evidence db eid d (some ds) st =
         .error (400, "Invalid date format. Use YYYY-MM-DD")) ∧
    (∀ d st, parseEvidenceStatus st = none →
       update_evidence db eid d none (some st) = .error (400, "Invalid status")) ∧
    (∀ d ds dd st, parseDate ds = some dd → parseEvidenceStatus st = none →
       update_evidence db eid d (some ds) (some st) = .error (400, "Invalid status")) ∧
    (∀ d, update_evidence db eid d none none =
       .ok { db with evidence := updateFirst (fun x => x.id == eid && x.deleted_at == none)
                             (fun _ => { e₀ with
                                description := (match d with | some x => some x | none => e₀.description) })
                             db.evidence }) ∧
    (∀ d ds dd, parseDate ds = some dd →
       update_evidence db eid d (some ds) none =
         .ok { db with evidence := updateFirst (fun x => x.id == eid && x.deleted_at == none)
                               (fun _ => { e₀ with
                                  description := (match d with | some x => some x | none => e₀.description),
                                  expiration_date := some dd })
                               db.evidence }) ∧
    (∀ d st sv, parseEvidenceStatus st = some sv →
       update_evidence db eid d none (some st) =
         .ok { db with evidence := updateFirst (fun x => x.id == eid && x.deleted_at == none)
                               (fun _ => { e₀ with
                                  description := (match d with | some x => some x | none => e₀.description),
                                  status := sv })
                               db.evidence }) ∧
    (∀ d ds dd st sv, parseDate ds = some dd → parseEvidenceStatus st = some sv →
       update_evidence db eid d (some ds) (some st) =
         .ok { db with evidence := updateFirst (fun x => x.id == eid && x.deleted_at == none)
                               (fun _ => { e₀ with
                                  description := (match d with | some x => some x | none => e₀.description),
                                  expiration_date := some dd,
                                  status := sv })
                               db.evidence }) := by
  refine ⟨?_, ?_, ?_, ?_, ?_, ?_, ?_⟩
  · intro d st ds _ hds
    cases d <;> simp [update_evidence, hfind, hds]
  · intro d st hst
    cases d <;> simp [update_evidence, hfind, hst]
  · intro d ds dd st hds hst
    cases d <;> simp [update_evidence, hfind, hds, hst]
  · intro d
    cases d <;> simp [update_evidence, hfind]
  · intro d ds dd hds
    cases d <;> simp [update_evidence, hfind, hds]
  · intro d st sv hst
    cases d <;> simp [update_evidence, hfind, hst]
  · intro d ds dd st sv hds hst
    cases d <;> simp [update_evidence, hfind, hds, hst]

/-- Witness for `c9_update_evidence` at the concrete instance: the live row
`e1` of `c7db`. -/
theorem c9_update_evidence_witness :
    c7db.evidence.find? (fun e => e.id == "e1" && e.deleted_at == none) =
      some (mkEvidenceRow 1 none) ∧
    ((∀ d st ds, allAscii ds = true → parseDate ds = none →
       update_evidence c7db "e1" d (some ds) st =
         .error (400, "Invalid date format. Use YYYY-MM-DD")) ∧
    (∀ d st, parseEvidenceStatus st = none →
       update_evidence c7db "e1" d none (some st) = .error (400, "Invalid status")) ∧
    (∀ d ds dd st, parseDate ds = some dd → parseEvidenceStatus st = none →
       update_evidence c7db "e1" d (some ds) (some st) = .error (400, "Invalid status")) ∧
    (∀ d, update_evidence c7db "e1" d none none =
       .ok { c7db with evidence := updateFirst (fun x => x.id == "e1" && x.deleted_at == none)
                             (fun _ => { mkEvidenceRow 1 none with
                                description := (match d with | some x => some x | none => (mkEvidenceRow 1 none).description) })
                             c7db.evidence }) ∧
    (∀ d ds dd, parseDate ds = some dd →
       update_evidence c7db "e1" d (some ds) none =
         .ok { c7db with evidence := updateFirst (fun x => x.id == "e1" && x.deleted_at == none)
                               (fun _ => { mkEvidenceRow 1 none with
                                  description := (match d with | some x => some x | none => (mkEvidenceRow 1 none).description),
                                  expiration_date := some dd })
                               c7db.evidence }) ∧
    (∀ d st sv, parseEvidenceStatus st = some sv →
       update_evidence c7db "e1" d none (some st) =
         .ok { c7db with evidence := updateFirst (fun x => x.id == "e1" && x.deleted_at == none)
                               (fun _ => { mkEvidenceRow 1 none with
                                  description := (match d with | some x => some x | none => (mkEvidenceRow 1 none).description),
                                  status := sv })
                               c7db.evidence }) ∧
    (∀ d ds dd st sv, parseDate ds = some dd → parseEvidenceStatus st = some sv →
       update_evidence c7db "e1" d (some ds) (some st) =
         .ok { c7db with evidence := updateFirst (fun x => x.id == "e1" && x.deleted_at == none)
                               (fun _ => { mkEvidenceRow 1 none with
                                  description := (match d with | some x => some x | none => (mkEvidenceRow 1 none).description),
                                  expiration_date := some dd,
                                  status := sv })
                               c7db.evidence })) :=
  ⟨rfl, c9_update_evidence c7db "e1" (mkEvidenceRow 1 none) rfl⟩

/-! ## C3: upload validation ordering (`upload_evidence`) -/

/-- The system of the C3 concrete instance (it has an organization, so the
storage key uses it rather than the fallback). -/
def c3sys : AISystem :=
  { id := "s1", name := "demo", description := none, risk_category := .high,
    organization := some "org", department := none, owner_email := none }

/-- The world of the C3 concrete instance: one system, one mapping, no
evidence, empty blob store. -/
def c3w : World :=
  { db := { systems := [c3sys], requirements := [], mappings := [c6m], evidence := [] },
    s3 := [] }

/-- C3, counterexample: the claim asserts that an upload whose mapping and
system exist and whose file passes the extension and size checks, but whose
expiration date does not parse, mutates no state — in particular writes no
blob.  False on the code: the S3 write (src/app.py lines 440–444) runs before
the expiration-date parse (lines 446–452), so the call fails with the date
validation error after the blob has already been written: the blob store goes
from empty to holding the derived key (no database row is created). -/
theorem c3_counterexample :
    upload_evidence c3w "m1" { filename := "a.pdf", size := 10 } none (some "not-a-date") none
        "20260101000000" 0 "ev1" true =
      (.error (400, "Invalid date format. Use YYYY-MM-DD"),
       { c3w with s3 := ["org/s1/m1/20260101000000_a.pdf"] }) ∧
    c3w.s3 = [] ∧
    (["org/s1/m1/20260101000000_a.pdf"] : List String) ≠ [] :=
  ⟨rfl, rfl, by decide⟩

/-- C3, amended: for an upload whose mapping and system exist, whose file
passes the extension and size checks, and whose supplied expiration date does
not parse as `YYYY-MM-DD`, the call fails with the date validation error and
creates no database row — but the blob has already been written to the store
under the derived key, because the expiration-date check runs after the blob
upload.  Validations (1)–(5) fail fast before any mutation; validation (6)
does not.  (The date string is restricted to ASCII, the domain on which
`parseDate` is faithful to CPython's `strptime`.) -/
theorem c3_amended (w : World) (mid : String) (file : UploadFile)
    (d ub : Option String) (ds ts : String) (now : Nat) (nid : String)
    (mapping : RequirementMapping) (system : AISystem)
    (hm : w.db.mappings.find? (fun m => m.id == mid) = some mapping)
    (hs : w.db.systems.find? (fun s => s.id == mapping.ai_system_id) = some system)
    (hfn : file.filename ≠ "")
    (hdot : containsChar '.' file.filename = true)
    (hext : extOf file.filename ∈ ALLOWED_FILE_TYPES)
    (hmax : ¬ file.size > MAX_FILE_SIZE)
    (h0 : file.size ≠ 0)
    (hascii : allAscii ds = true)
    (hdate : parseDate ds = none) :
    upload_evidence w mid file d (some ds) ub ts now nid true =
      (.error (400, "Invalid date format. Use YYYY-MM-DD"),
       { w with s3 := w.s3 ++
          [generate_s3_key system.organization system.id mid file.filename ts] }) := by
  simp [upload_evidence, hm, hs, hfn, hdot, hext, hmax, h0, hdate]

/-- Witness for `c3_amended` at the concrete instance. -/
theorem c3_amended_witness :
    c3w.db.mappings.find? (fun m => m.id == "m1") = some c6m ∧
    c3w.db.systems.find? (fun s => s.id == c6m.ai_system_id) = some c3sys ∧
    ("a.pdf" : String) ≠ "" ∧
    containsChar '.' "a.pdf" = true ∧
    extOf "a.pdf" ∈ ALLOWED_FILE_TYPES ∧
    ¬ (10 : Nat) > MAX_FILE_SIZE ∧
    (10 : Nat) ≠ 0 ∧
    allAscii "not-a-date" = true ∧
    parseDate "not-a-date" = none ∧
    upload_evidence c3w "m1" { filename := "a.pdf", size := 10 } none (some "not-a-date") none
        "20260101000000" 0 "ev1" true =
      (.error (400, "Invalid date format. Use YYYY-MM-DD"),
       { c3w with s3 := c3w.s3 ++
          [generate_s3_key c3sys.organization c3sys.id "m1" "a.pdf" "20260101000000"] }) :=
  ⟨rfl, rfl, by decide, by decide, by decide, by decide, by decide, by decide, by decide,
   c3_amended c3w "m1" { filename := "a.pdf", size := 10 } none none "not-a-date"
     "20260101000000" 0 "ev1" c6m c3sys rfl rfl (by decide) (by decide) (by decide)
     (by decide) (by decide) (by decide) (by decide)⟩

/-! ## C10: shape of uploaded evidence (`upload_evidence`) -/

/-- C10: every evidence row the upload endpoint creates has freshness status
`current` and a non-null requirement-mapping reference (the path parameter's
mapping id); the row is appended to the store and no other evidence row is
touched.  The upload path never creates evidence in another freshness state
and never creates mapping-less evidence, although the data model would allow
a null mapping reference. -/
theorem c10_upload_shape (w : World) (mid : String) (file : UploadFile)
    (d ed ub : Option String) (ts : String) (now : Nat) (nid : String) (ok : Bool)
    (ev : Evidence) (w' : World)
    (h : upload_evidence w mid file d ed ub ts now nid ok = (.ok ev, w')) :
    ev.status = EvidenceStatus.current ∧
    ev.requirement_mapping_id = some mid ∧
    ev.requirement_mapping_id ≠ none ∧
    w'.db.evidence = w.db.evidence ++ [ev] := by
  simp only [upload_evidence] at h
  repeat' split at h
  all_goals simp only [Prod.mk.injEq] at h
  any_goals exact Except.noConfusion h.1
  obtain ⟨h1, h2⟩ := h
  injection h1 with h1
  subst h1
  subst h2
  exact ⟨rfl, rfl, by simp, rfl⟩

/-- Witness for `c10_upload_shape`: a successful concrete upload. -/
theorem c10_upload_shape_witness :
    upload_evidence c3w "m1" { filename := "a.pdf", size := 10 } none (some "2026-01-15") none
        "20260101000000" 7 "ev1" true =
      (.ok { id := "ev1", ai_system_id := "s1", requirement_mapping_id := some "m1",
             file_name := "a.pdf", file_type := "pdf", file_size := 10,
             s3_key := "org/s1/m1/20260101000000_a.pdf", description := none,
             status := .current, expiration_date := some { year := 2026, month := 1, day := 15 },
             uploaded_by := none, deleted_at := none, created_at := 7 },
       { db := { systems := [c3sys], requirements := [], mappings := [c6m],
                 evidence := [{ id := "ev1", ai_system_id := "s1",
                                requirement_mapping_id := some "m1",
                                file_name := "a.pdf", file_type := "pdf", file_size := 10,
                                s3_key := "org/s1/m1/20260101000000_a.pdf",
                                description := none, status := .current,
                                expiration_date := some { year := 2026, month := 1, day := 15 },
                                uploaded_by := none, deleted_at := none, created_at := 7 }] },
         s3 := ["org/s1/m1/20260101000000_a.pdf"] }) ∧
    ({ id := "ev1", ai_system_id := "s1", requirement_mapping_id := some "m1",
       file_name := "a.pdf", file_type := "pdf", file_size := 10,
       s3_key := "org/s1/m1/20260101000000_a.pdf", description := none,
       status := .current, expiration_date := some { year := 2026, month := 1, day := 15 },
       uploaded_by := none, deleted_at := none, created_at := 7 } : Evidence).status =
        EvidenceStatus.current ∧
    ({ id := "ev1", ai_system_id := "s1", requirement_mapping_id := some "m1",
       file_name := "a.pdf", file_type := "pdf", file_size := 10,
       s3_key := "org/s1/m1/20260101000000_a.pdf", description := none,
       status := .current, expiration_date := some { year := 2026, month := 1, day := 15 },
       uploaded_by := none, deleted_at := none, created_at := 7 } : Evidence).requirement_mapping_id =
        some "m1" :=
  ⟨rfl,
   (c10_upload_shape c3w "m1" { filename := "a.pdf", size := 10 } none (some "2026-01-15") none
     "20260101000000" 7 "ev1" true _ _ rfl).1,
   (c10_upload_shape c3w "m1" { filename := "a.pdf", size := 10 } none (some "2026-01-15") none
     "20260101000000" 7 "ev1" true _ _ rfl).2.1⟩

end WatchGraph
